import Mathlib

/-!
Shallow embedding of the virtualization range controller of the
warper-ember repository.

Embedded source:
* the `Virtualizer` component: `setupVirtualizer`, `calculateRange`,
  `handleItemCountChange`, `handleScroll`, `willDestroy`;
* the WASM gateway: `initializeWasm` together with the success and
  failure completion of its asynchronous load body.

Modelling conventions: scroll positions, sizes and offsets are rationals,
index arithmetic is over the integers, and the `| 0` coercion the
component applies to engine results is `jsToInt32` (truncation toward
zero followed by wrapping into the signed 32-bit range).  The opaque WASM
engine handles (`QuantumUniform`, `QuantumVariable`) are modelled as
records of abstract functions, and the factories `createVirtualizer` and
`createUniformVirtualizer` are abstract parameters: the engine itself is
an external black box consumed through the narrow interface declared in
the repository.  The animation-frame scheduling and teardown behaviour is
modelled by an explicit event system (`LifeState`, `lifeStep`) derived
from `handleScroll` and `willDestroy`.
-/

namespace Warper

/-- Truncation of a rational toward zero, the first step of the
ECMAScript ToInt32 conversion. -/
def ratTrunc (q : ℚ) : ℤ := if q < 0 then ⌈q⌉ else ⌊q⌋

/-- Wrapping of an integer into the signed 32-bit range, the second step
of the ECMAScript ToInt32 conversion. -/
def wrapInt32 (x : ℤ) : ℤ := (x + 2 ^ 31) % 2 ^ 32 - 2 ^ 31

/-- The `| 0` coercion the component applies to each engine result
channel. -/
def jsToInt32 (q : ℚ) : ℤ := wrapInt32 (ratTrunc q)

/-- The fixed safety ceiling on the DOM scroll height
(`MAX_SAFE_SCROLL_HEIGHT = 15_000_000`). -/
def MAX_SAFE_SCROLL_HEIGHT : ℚ := 15000000

/-- Geometry of the bound scrollable element, as read by
`calculateRange`. -/
structure Element where
  scrollTop : ℚ
  scrollLeft : ℚ
  clientWidth : ℚ
  clientHeight : ℚ

/-- The component arguments (`VirtualizerSignature.Args`). -/
structure Args where
  itemCount : ℤ
  estimateSize : ℤ → ℚ
  overscan : Option ℤ
  horizontal : Option Bool

/-- Model of the opaque WASM uniform handle: the constructor arguments
`count` and `size` are recorded, `calc_range` is an abstract black-box
function. -/
structure QuantumUniform where
  count : ℤ
  size : ℚ
  calc_range : ℚ → ℚ → ℤ → List ℚ

/-- The `set_count` operation of the uniform handle updates the count in
place. -/
def QuantumUniform.set_count (u : QuantumUniform) (count : ℤ) : QuantumUniform :=
  { u with count := count }

/-- Model of the opaque WASM variable-size handle: all operations are
abstract black-box functions. -/
structure QuantumVariable where
  calc_range : ℚ → ℚ → ℤ → List ℚ
  get_offset : ℤ → ℚ
  get_size : ℤ → ℚ

/-- The published range snapshot (`VirtualRange`). -/
structure VirtualRange where
  startIndex : ℤ
  endIndex : ℤ
  items : List ℤ
  offsets : List ℚ
  sizes : List ℚ
  totalHeight : ℚ
  paddingTop : ℚ
  deriving DecidableEq

/-- The controller state: the tracked and private fields of the
`Virtualizer` component that the range computation reads and writes.  The
element reference and the animation-frame bookkeeping are modelled
separately (`Element` is passed explicitly, frames by `LifeState`). -/
structure ControllerState where
  isLoading : Bool
  error : Option String
  range : VirtualRange
  virtualizer : Option QuantumVariable
  uniformVirtualizer : Option QuantumUniform
  isUniform : Bool
  uniformSize : ℚ
  scrollMultiplier : ℚ
  lastStart : ℤ
  lastEnd : ℤ
  lastPaddingTop : ℚ
  wasmReady : Bool

/-- The field initializers of the component class. -/
def initialRange : VirtualRange :=
  { startIndex := 0, endIndex := 0, items := [], offsets := [], sizes := [],
    totalHeight := 0, paddingTop := 0 }

/-- The initial controller state, from the field initializers of the
component class. -/
def initialState : ControllerState :=
  { isLoading := true, error := none, range := initialRange,
    virtualizer := none, uniformVirtualizer := none,
    isUniform := false, uniformSize := 0, scrollMultiplier := 1,
    lastStart := -1, lastEnd := -1, lastPaddingTop := 0, wasmReady := false }

/-- Outcome channel of one `calculateRange` invocation, recording which
exit the code took. -/
inductive CalcOutcome
  | noElement
  | retryScheduled
  | noEngine
  | skipped
  | published
  | rangeError
  deriving DecidableEq

/-- Scroll position along the configured axis (line 196 of the
component). -/
def scrollPosOf (args : Args) (el : Element) : ℚ :=
  if args.horizontal.getD false then el.scrollLeft else el.scrollTop

/-- Viewport extent along the configured axis (line 197 of the
component). -/
def viewportOf (args : Args) (el : Element) : ℚ :=
  if args.horizontal.getD false then el.clientWidth else el.clientHeight

/-- Scroll-multiplier computation shared by `setupVirtualizer` and
`handleItemCountChange` (lines 132 to 136 and 174 to 178). -/
def computeScrollMultiplier (virtualTotalHeight : ℚ) : ℚ :=
  if virtualTotalHeight > MAX_SAFE_SCROLL_HEIGHT then
    virtualTotalHeight / MAX_SAFE_SCROLL_HEIGHT
  else 1

/-- Engine dispatch of `calculateRange` (lines 209 to 227): the uniform
handle is used when `isUniform` is set and present, otherwise the
variable handle; `none` models the early return when no handle exists.
Each channel of the engine result goes through `info[k] ?? 0` and
`| 0`. -/
def calcCandidate (st : ControllerState) (virtualScroll viewportSize : ℚ)
    (overscan : ℤ) : Option (ℤ × ℤ) :=
  match st.isUniform, st.uniformVirtualizer with
  | true, some u =>
    let info := u.calc_range virtualScroll viewportSize overscan
    some (jsToInt32 (info.getD 0 0), jsToInt32 (info.getD 1 0))
  | _, _ =>
    match st.virtualizer with
    | some v =>
      let info := v.calc_range virtualScroll viewportSize overscan
      some (jsToInt32 (info.getD 0 0), jsToInt32 (info.getD 1 0))
    | none => none

/-- First visible item offset in virtual coordinates (lines 233 to
238). -/
def firstItemOffset (st : ControllerState) (start : ℤ) : ℚ :=
  if st.isUniform then (start : ℚ) * st.uniformSize
  else
    match st.virtualizer with
    | some v => v.get_offset start
    | none => 0

/-- Construction of the published snapshot (lines 255 to 290): the three
per-item arrays of length `end - start`, the clamped total height and the
padding. -/
def buildRange (st : ControllerState) (totalCount start endIndex : ℤ)
    (firstItemVirtualOffset newPaddingTop : ℚ) : VirtualRange :=
  let visibleCount := (endIndex - start).toNat
  let items := (List.range visibleCount).map (fun i : ℕ => start + (i : ℤ))
  let offsets : List ℚ :=
    if st.isUniform then
      (List.range visibleCount).map (fun i : ℕ => (i : ℚ) * st.uniformSize)
    else
      match st.virtualizer with
      | some v =>
        (List.range visibleCount).map
          (fun i : ℕ => v.get_offset (start + (i : ℤ)) - firstItemVirtualOffset)
      | none => List.replicate visibleCount 0
  let sizes : List ℚ :=
    if st.isUniform then List.replicate visibleCount st.uniformSize
    else
      match st.virtualizer with
      | some v =>
        (List.range visibleCount).map (fun i : ℕ => v.get_size (start + (i : ℤ)))
      | none => List.replicate visibleCount 0
  let totalHeight : ℚ :=
    if st.isUniform then (totalCount : ℚ) * st.uniformSize / st.scrollMultiplier
    else
      match st.virtualizer with
      | some v => v.get_offset totalCount / st.scrollMultiplier
      | none => 0
  { startIndex := start, endIndex := endIndex, items := items,
    offsets := offsets, sizes := sizes,
    totalHeight := min totalHeight MAX_SAFE_SCROLL_HEIGHT,
    paddingTop := newPaddingTop }

/-- Tail of `calculateRange` after the engine dispatch (lines 229 to
290): clamping, skip rule, state update and publication.  A negative
visible count makes the array allocation throw in the source; that exit
is the `rangeError` outcome and happens after the `lastStart`, `lastEnd`
and `lastPaddingTop` writes, exactly as in the source order. -/
def calcRangeWith (args : Args) (st : ControllerState) :
    Option (ℤ × ℤ) → ControllerState × CalcOutcome
  | none => (st, .noEngine)
  | some (s0, e0) =>
    let totalCount := args.itemCount
    let start := max 0 s0
    let endIndex := min totalCount e0
    let firstItemVirtualOffset := firstItemOffset st start
    let newPaddingTop := firstItemVirtualOffset / st.scrollMultiplier
    if start = st.lastStart ∧ endIndex = st.lastEnd ∧
        |newPaddingTop - st.lastPaddingTop| < 1 / 2 then
      (st, .skipped)
    else
      let st1 := { st with lastStart := start, lastEnd := endIndex,
                           lastPaddingTop := newPaddingTop }
      if endIndex - start < 0 then (st1, .rangeError)
      else
        ({ st1 with range := (buildRange st totalCount start endIndex
              firstItemVirtualOffset newPaddingTop) }, .published)

/-- The `calculateRange` method (lines 189 to 291).  The element is the
current `this.element`; `none` models the missing-element early return,
and a non-positive viewport extent models the reschedule-and-return
exit. -/
def calculateRange (args : Args) (el : Option Element)
    (st : ControllerState) : ControllerState × CalcOutcome :=
  match el with
  | none => (st, .noElement)
  | some el =>
    if viewportOf args el ≤ 0 then (st, .retryScheduled)
    else
      calcRangeWith args st
        (calcCandidate st (scrollPosOf args el * st.scrollMultiplier)
          (viewportOf args el) (args.overscan.getD 3))

/-- The uniformity sampling loop of `setupVirtualizer` (lines 150 to
157), instrumented with the list of indices at which it invokes the
estimator; the loop starts at index 1 and stops early at the first
mismatch. -/
def uniformCheckLoop (estimateSize : ℤ → ℚ) (firstSize : ℚ) :
    ℤ → ℕ → Bool × List ℤ
  | _, 0 => (true, [])
  | i, fuel + 1 =>
    if estimateSize i = firstSize then
      let rest := uniformCheckLoop estimateSize firstSize (i + 1) fuel
      (rest.1, i :: rest.2)
    else (false, [i])

section Controller

variable (createVirtualizer : List ℚ → QuantumVariable)
variable (createUniformVirtualizer : ℤ → ℚ → QuantumUniform)

/-- The `setupVirtualizer` method (lines 145 to 187), instrumented with
the full list of indices at which it invokes the caller-supplied
estimator, in call order: index 0 first (line 147), then the sampling
loop, then, on the variable path, every index below the count.  The
deferred initial recomputation it schedules is applied explicitly by the
theorems. -/
def setupVirtualizer (args : Args) (st : ControllerState) :
    ControllerState × List ℤ :=
  let count := args.itemCount
  let firstSize := args.estimateSize 0
  let checkCount := min 10 count
  let chk := uniformCheckLoop args.estimateSize firstSize 1 (checkCount - 1).toNat
  let isUniform := chk.1
  let sampled := chk.2
  if isUniform then
    let virtualTotalHeight := (count : ℚ) * firstSize
    ({ st with isUniform := isUniform, uniformSize := firstSize,
               uniformVirtualizer := some (createUniformVirtualizer count firstSize),
               scrollMultiplier := computeScrollMultiplier virtualTotalHeight,
               isLoading := false },
     0 :: sampled)
  else
    let sizes := (List.range count.toNat).map (fun i : ℕ => args.estimateSize (i : ℤ))
    let virtualTotalHeight := sizes.sum
    ({ st with isUniform := isUniform, uniformSize := firstSize,
               virtualizer := some (createVirtualizer sizes),
               scrollMultiplier := computeScrollMultiplier virtualTotalHeight,
               isLoading := false },
     0 :: (sampled ++ (List.range count.toNat).map (fun i : ℕ => (i : ℤ))))

/-- The `handleItemCountChange` method (lines 110 to 142).  The second
component is `none` on the early-return paths and carries the outcome of
the forced `calculateRange` call otherwise.  On the variable path the old
handle is freed and replaced; the free itself is tracked by the lifecycle
model. -/
def handleItemCountChange (args : Args) (el : Option Element)
    (st : ControllerState) : ControllerState × Option CalcOutcome :=
  if st.wasmReady = false ∨ st.isLoading = true then (st, none)
  else
    let count := args.itemCount
    let step : Option (ControllerState × ℚ) :=
      match st.isUniform, st.uniformVirtualizer with
      | true, some u =>
        some ({ st with uniformVirtualizer := some (u.set_count count) },
              (count : ℚ) * st.uniformSize)
      | _, _ =>
        match st.virtualizer with
        | some _v =>
          let sizes := (List.range count.toNat).map (fun i : ℕ => args.estimateSize (i : ℤ))
          some ({ st with virtualizer := some (createVirtualizer sizes) },
                sizes.sum)
        | none => none
    match step with
    | none => (st, none)
    | some (st1, virtualTotalHeight) =>
      let st2 := { st1 with
          scrollMultiplier := computeScrollMultiplier virtualTotalHeight,
          lastStart := -1, lastEnd := -1 }
      let r := calculateRange args el st2
      (r.1, some r.2)

end Controller

/-! ### Engine contract

The position-index engine is external and assumed correct: its range
query yields a two-channel result holding an integral candidate pair
`(start, end)` with `0 ≤ start ≤ end ≤ count`.  The contract is a
hypothesis of the theorems that need it and is discharged concretely in
their witnesses. -/

/-- A range-query result is a pair of integral channels bounded by the
item count. -/
def rangeResultOK (info : List ℚ) (n : ℤ) : Prop :=
  ∃ s e : ℤ, info = [(s : ℚ), (e : ℚ)] ∧ 0 ≤ s ∧ s ≤ e ∧ e ≤ n

/-- Engine contract for a uniform handle against item count `n`. -/
def uniformContract (u : QuantumUniform) (n : ℤ) : Prop :=
  ∀ vs vp ov, rangeResultOK (u.calc_range vs vp ov) n

/-- Engine contract for a variable handle against item count `n`. -/
def variableContract (v : QuantumVariable) (n : ℤ) : Prop :=
  ∀ vs vp ov, rangeResultOK (v.calc_range vs vp ov) n

/-! ### WASM gateway model -/

/-- The gateway status values. -/
inductive WasmStatus
  | idle
  | initializing
  | ready
  | error
  deriving DecidableEq

/-- The module-level mutable state of the gateway: the status, the
in-flight marker (`initializationPromise`, identified by a fresh number)
and a counter supplying fresh promise identities. -/
structure GatewayState where
  wasmStatus : WasmStatus
  initializationPromise : Option ℕ
  nextPromiseId : ℕ
  deriving DecidableEq

/-- What a call of `initializeWasm` returns to its caller: the already
pending promise, an immediately resolved promise, or a freshly started
load. -/
inductive InitCallResult
  | existing (p : ℕ)
  | resolvedImmediately
  | started (p : ℕ)
  deriving DecidableEq

/-- The synchronous body of `initializeWasm` (gateway lines 87 to 132):
return the in-flight promise when one exists, resolve immediately when
already ready, otherwise mark initializing and start a fresh load. -/
def initializeWasm (s : GatewayState) : GatewayState × InitCallResult :=
  match s.initializationPromise with
  | some p => (s, .existing p)
  | none =>
    if s.wasmStatus = .ready then (s, .resolvedImmediately)
    else
      ({ s with wasmStatus := .initializing,
                initializationPromise := some s.nextPromiseId,
                nextPromiseId := s.nextPromiseId + 1 },
       .started s.nextPromiseId)

/-- Completion of the asynchronous load body: on success the status
becomes `ready`, on failure `error`, and the `finally` clause clears the
in-flight marker on both paths. -/
def settleInit (s : GatewayState) (success : Bool) : GatewayState :=
  { s with wasmStatus := if success then .ready else .error,
           initializationPromise := none }

/-! ### Animation-frame lifecycle model

Derived from `handleScroll` (lines 293 to 304) and `willDestroy` (lines
82 to 92): scroll notifications latch `rafPending` and schedule a
two-stage animation-frame chain; only the second stage assigns `rafId`
and only `rafId` is cancelled at teardown.  Frames run in schedule order;
the second stage clears the latch and runs the recomputation callback.
Teardown frees a live engine handle, clears the handle and element
references (the element listener and reference are removed by the
modifier cleanup), and leaves `rafPending` untouched. -/

/-- The two callbacks of the double-deferred scroll scheduling. -/
inductive FrameTask
  | scrollStage1
  | scrollStage2
  deriving DecidableEq

/-- State of the lifecycle model: controller liveness, the latch and
`rafId` fields, the pending animation frames in schedule order, the
engine-handle reference with its free counter, and a counter of
recomputation callbacks executed after teardown. -/
structure LifeState where
  destroyed : Bool
  rafPending : Bool
  rafId : ℕ
  nextFrame : ℕ
  frames : List (ℕ × FrameTask)
  handleLive : Bool
  freeCount : ℕ
  elementAttached : Bool
  recomputeRunsAfterDestroy : ℕ
  deriving DecidableEq

/-- The lifecycle events: a scroll notification, the browser running the
next due animation frame, and component teardown. -/
inductive LifeEvent
  | scroll
  | runFrame
  | destroy
  deriving DecidableEq

/-- A scroll notification (`handleScroll`): delivered only while the
listener is attached; a set latch makes it a no-op, otherwise the latch
is set and stage 1 is scheduled.  `rafId` is not assigned here. -/
def stepScroll (s : LifeState) : LifeState :=
  if s.elementAttached = false then s
  else if s.rafPending then s
  else { s with rafPending := true,
                frames := s.frames ++ [(s.nextFrame, .scrollStage1)],
                nextFrame := s.nextFrame + 1 }

/-- The browser runs the next due animation frame.  Stage 1 schedules
stage 2 and assigns its identifier to `rafId`; stage 2 clears the latch
and runs `calculateRange`, which is counted when it happens after
teardown (it exits early then, since the element reference is cleared, so
it never reaches the engine handle). -/
def stepRunFrame (s : LifeState) : LifeState :=
  match s.frames with
  | [] => s
  | (_, task) :: rest =>
    match task with
    | .scrollStage1 =>
      { s with frames := rest ++ [(s.nextFrame, .scrollStage2)],
               rafId := s.nextFrame, nextFrame := s.nextFrame + 1 }
    | .scrollStage2 =>
      let s1 := { s with frames := rest, rafPending := false }
      if s1.destroyed then
        { s1 with recomputeRunsAfterDestroy := s1.recomputeRunsAfterDestroy + 1 }
      else s1

/-- Teardown (`willDestroy` plus the modifier cleanup): cancel the frame
registered under `rafId` when one is registered, free the engine handle
through the optional-chaining calls and clear its reference, and detach
the element.  `rafPending` is not written. -/
def stepDestroy (s : LifeState) : LifeState :=
  { s with destroyed := true,
           frames := if s.rafId ≠ 0 then
               s.frames.filter (fun p => p.1 != s.rafId)
             else s.frames,
           freeCount := s.freeCount + (if s.handleLive then 1 else 0),
           handleLive := false,
           elementAttached := false }

/-- One lifecycle step. -/
def lifeStep (s : LifeState) : LifeEvent → LifeState
  | .scroll => stepScroll s
  | .runFrame => stepRunFrame s
  | .destroy => stepDestroy s

/-- The lifecycle start state: live controller, no pending frame, `rafId`
not yet assigned (its field initializer is 0), a live engine handle, the
element attached. -/
def initLife : LifeState :=
  { destroyed := false, rafPending := false, rafId := 0, nextFrame := 1,
    frames := [], handleLive := true, freeCount := 0,
    elementAttached := true, recomputeRunsAfterDestroy := 0 }

/-- Run a sequence of lifecycle events from the start state. -/
def runLife (evs : List LifeEvent) : LifeState :=
  evs.foldl lifeStep initLife

/-! ### Concrete fixtures used by the witnesses -/

/-- A variable handle whose operations all return empty or zero. -/
def noopVariableHandle : QuantumVariable :=
  { calc_range := (fun _ _ _ => []), get_offset := (fun _ => 0), get_size := (fun _ => 0) }

/-- A variable-handle factory ignoring its sizes argument. -/
def noopVariableFactory : List ℚ → QuantumVariable := fun _ => noopVariableHandle

/-- A uniform-handle factory recording its constructor arguments. -/
def plainUniformFactory : ℤ → ℚ → QuantumUniform :=
  fun n c => { count := n, size := c, calc_range := (fun _ _ _ => []) }

/-- Five items of estimated size 50, default options. -/
def argsFive : Args :=
  { itemCount := 5, estimateSize := (fun _ => 50), overscan := none, horizontal := none }

/-- Zero items, default options. -/
def argsZero : Args :=
  { itemCount := 0, estimateSize := (fun _ => 50), overscan := none, horizontal := none }

/-- An element that is not laid out yet. -/
def elFlat : Element :=
  { scrollTop := 0, scrollLeft := 0, clientWidth := 0, clientHeight := 0 }

/-- An element with a 100 by 100 viewport at scroll position 0. -/
def elTall : Element :=
  { scrollTop := 0, scrollLeft := 0, clientWidth := 100, clientHeight := 100 }

/-- A gateway state with a load in flight. -/
def gsInFlight : GatewayState :=
  { wasmStatus := .idle, initializationPromise := some 7, nextPromiseId := 8 }

/-- A gateway state that finished loading successfully. -/
def gsReady : GatewayState :=
  { wasmStatus := .ready, initializationPromise := none, nextPromiseId := 3 }

/-- A uniform handle whose range query always yields the candidate pair
(1, 3). -/
def uniHandle13 : QuantumUniform :=
  { count := 5, size := 50, calc_range := (fun _ _ _ => [1, 3]) }

/-- A ready uniform-path controller state over `uniHandle13`. -/
def stUniFive : ControllerState :=
  { initialState with isUniform := true, uniformVirtualizer := some uniHandle13,
                      uniformSize := 50, isLoading := false, wasmReady := true }

/-- A uniform-handle factory whose handles report the empty candidate
pair. -/
def emptyUniformFactory : ℤ → ℚ → QuantumUniform :=
  fun n c => { count := n, size := c, calc_range := (fun _ _ _ => [0, 0]) }

/-- Two thousand items of estimated size 50, default options. -/
def argsTwoThousand : Args :=
  { itemCount := 2000, estimateSize := (fun _ => 50), overscan := none, horizontal := none }

/-- The fixture uniform state carrying a previously published total
height of 50000 (one thousand items of size 50). -/
def stUniThousand : ControllerState :=
  { stUniFive with range := { initialRange with totalHeight := 50000 } }

/-- Reachability between controller states by recomputation steps under
fixed arguments; each step may read a fresh element geometry. -/
inductive CalcStep (args : Args) (st : ControllerState) : ControllerState → Prop
  | refl : CalcStep args st st
  | step (st' : ControllerState) (el : Option Element) :
      CalcStep args st st' → CalcStep args st (calculateRange args el st').1

/-- Resource invariant of the lifecycle model: a live handle has never
been freed, a dead reference has been freed exactly once, and teardown
clears the reference. -/
def lifeInv (s : LifeState) : Prop :=
  (s.handleLive = true → s.freeCount = 0) ∧
  (s.handleLive = false → s.freeCount = 1) ∧
  (s.destroyed = true → s.handleLive = false)

/-! ### Helper lemmas -/

/-- The `| 0` coercion is the identity on integral values inside the
signed 32-bit range. -/
lemma jsToInt32_intCast (s : ℤ) (h1 : -2 ^ 31 ≤ s) (h2 : s < 2 ^ 31) :
    jsToInt32 (s : ℚ) = s := by
  unfold jsToInt32 ratTrunc wrapInt32
  have htr : (if (s : ℚ) < 0 then ⌈(s : ℚ)⌉ else ⌊(s : ℚ)⌋) = s := by
    split <;> simp
  rw [htr]
  omega

/-- Reduction of the engine dispatch on the uniform path. -/
lemma calcCandidate_uniform (st : ControllerState) (u : QuantumUniform)
    (hb : st.isUniform = true) (hu : st.uniformVirtualizer = some u)
    (vs vp : ℚ) (ov : ℤ) :
    calcCandidate st vs vp ov =
      some (jsToInt32 ((u.calc_range vs vp ov).getD 0 0),
            jsToInt32 ((u.calc_range vs vp ov).getD 1 0)) := by
  unfold calcCandidate
  rw [hb, hu]

/-- The engine dispatch reads only the handle fields and the uniform
flag. -/
lemma calcCandidate_congr (st st' : ControllerState)
    (h1 : st'.isUniform = st.isUniform)
    (h2 : st'.uniformVirtualizer = st.uniformVirtualizer)
    (h3 : st'.virtualizer = st.virtualizer) (vs vp : ℚ) (ov : ℤ) :
    calcCandidate st' vs vp ov = calcCandidate st vs vp ov := by
  unfold calcCandidate
  rw [h1, h2, h3]

/-- The first-item offset reads only the uniform flag, the uniform size
and the variable handle. -/
lemma firstItemOffset_congr (st st' : ControllerState)
    (h1 : st'.isUniform = st.isUniform)
    (h2 : st'.uniformSize = st.uniformSize)
    (h3 : st'.virtualizer = st.virtualizer) (start : ℤ) :
    firstItemOffset st' start = firstItemOffset st start := by
  unfold firstItemOffset
  rw [h1, h2, h3]

/-- Under the engine contract the clamped candidate channels are an
ordered pair of indices bounded by the item count. -/
lemma calcCandidate_bounds (st : ControllerState) (n : ℤ)
    (hU : ∀ u, st.uniformVirtualizer = some u → uniformContract u n)
    (hV : ∀ v, st.virtualizer = some v → variableContract v n)
    (h31 : n < 2 ^ 31) (vs vp : ℚ) (ov : ℤ) (s0 e0 : ℤ)
    (hc : calcCandidate st vs vp ov = some (s0, e0)) :
    0 ≤ s0 ∧ s0 ≤ e0 ∧ e0 ≤ n := by
  unfold calcCandidate at hc
  split at hc
  · rename_i u hb hu
    obtain ⟨s, e, hinfo, hs, hse, hen⟩ := hU u hu vs vp ov
    rw [hinfo] at hc
    simp only [List.getD_cons_zero, List.getD_cons_succ] at hc
    rw [jsToInt32_intCast s (by omega) (by omega),
        jsToInt32_intCast e (by omega) (by omega)] at hc
    simp only [Option.some.injEq, Prod.mk.injEq] at hc
    omega
  · split at hc
    · rename_i v heq
      obtain ⟨s, e, hinfo, hs, hse, hen⟩ := hV v heq vs vp ov
      rw [hinfo] at hc
      simp only [List.getD_cons_zero, List.getD_cons_succ] at hc
      rw [jsToInt32_intCast s (by omega) (by omega),
          jsToInt32_intCast e (by omega) (by omega)] at hc
      simp only [Option.some.injEq, Prod.mk.injEq] at hc
      omega
    · simp at hc

/-- Unfolded form of the publication tail on an engine candidate. -/
lemma calcRangeWith_eq (args : Args) (st : ControllerState) (s0 e0 : ℤ) :
    calcRangeWith args st (some (s0, e0)) =
      if max 0 s0 = st.lastStart ∧ min args.itemCount e0 = st.lastEnd ∧
          |firstItemOffset st (max 0 s0) / st.scrollMultiplier - st.lastPaddingTop|
            < 1 / 2 then
        (st, .skipped)
      else if min args.itemCount e0 - max 0 s0 < 0 then
        ({ st with lastStart := max 0 s0, lastEnd := min args.itemCount e0,
                   lastPaddingTop := firstItemOffset st (max 0 s0) / st.scrollMultiplier },
         .rangeError)
      else
        ({ st with lastStart := max 0 s0, lastEnd := min args.itemCount e0,
                   lastPaddingTop := firstItemOffset st (max 0 s0) / st.scrollMultiplier,
                   range := (buildRange st args.itemCount (max 0 s0)
                     (min args.itemCount e0) (firstItemOffset st (max 0 s0))
                     (firstItemOffset st (max 0 s0) / st.scrollMultiplier)) },
         .published) := rfl

/-- Unfolded form of `calculateRange` on a present element. -/
lemma calculateRange_some_eq (args : Args) (e : Element) (st : ControllerState) :
    calculateRange args (some e) st =
      if viewportOf args e ≤ 0 then (st, .retryScheduled)
      else
        calcRangeWith args st
          (calcCandidate st (scrollPosOf args e * st.scrollMultiplier)
            (viewportOf args e) (args.overscan.getD 3)) := rfl

/-- The publication tail never changes the configuration fields: only the
three last-accepted fields and the published range are written. -/
lemma calcRangeWith_preserves (args : Args) (st : ControllerState)
    (c : Option (ℤ × ℤ)) :
    (calcRangeWith args st c).1.isLoading = st.isLoading ∧
    (calcRangeWith args st c).1.error = st.error ∧
    (calcRangeWith args st c).1.virtualizer = st.virtualizer ∧
    (calcRangeWith args st c).1.uniformVirtualizer = st.uniformVirtualizer ∧
    (calcRangeWith args st c).1.isUniform = st.isUniform ∧
    (calcRangeWith args st c).1.uniformSize = st.uniformSize ∧
    (calcRangeWith args st c).1.scrollMultiplier = st.scrollMultiplier ∧
    (calcRangeWith args st c).1.wasmReady = st.wasmReady := by
  rcases c with _ | ⟨s0, e0⟩
  · exact ⟨rfl, rfl, rfl, rfl, rfl, rfl, rfl, rfl⟩
  · rw [calcRangeWith_eq]
    split
    · exact ⟨rfl, rfl, rfl, rfl, rfl, rfl, rfl, rfl⟩
    · split <;> exact ⟨rfl, rfl, rfl, rfl, rfl, rfl, rfl, rfl⟩

/-- A recomputation never changes the configuration fields of the
controller. -/
lemma calculateRange_preserves (args : Args) (el : Option Element)
    (st : ControllerState) :
    (calculateRange args el st).1.isLoading = st.isLoading ∧
    (calculateRange args el st).1.error = st.error ∧
    (calculateRange args el st).1.virtualizer = st.virtualizer ∧
    (calculateRange args el st).1.uniformVirtualizer = st.uniformVirtualizer ∧
    (calculateRange args el st).1.isUniform = st.isUniform ∧
    (calculateRange args el st).1.uniformSize = st.uniformSize ∧
    (calculateRange args el st).1.scrollMultiplier = st.scrollMultiplier ∧
    (calculateRange args el st).1.wasmReady = st.wasmReady := by
  rcases el with _ | e
  · exact ⟨rfl, rfl, rfl, rfl, rfl, rfl, rfl, rfl⟩
  · rw [calculateRange_some_eq]
    split
    · exact ⟨rfl, rfl, rfl, rfl, rfl, rfl, rfl, rfl⟩
    · exact calcRangeWith_preserves args st _

/-- Field values of a built snapshot: the indices and padding are passed
through and the three arrays have length `endIndex - start`. -/
lemma buildRange_spec (st : ControllerState) (totalCount start endIndex : ℤ)
    (f p : ℚ) :
    (buildRange st totalCount start endIndex f p).startIndex = start ∧
    (buildRange st totalCount start endIndex f p).endIndex = endIndex ∧
    (buildRange st totalCount start endIndex f p).paddingTop = p ∧
    (buildRange st totalCount start endIndex f p).items.length
      = (endIndex - start).toNat ∧
    (buildRange st totalCount start endIndex f p).offsets.length
      = (endIndex - start).toNat ∧
    (buildRange st totalCount start endIndex f p).sizes.length
      = (endIndex - start).toNat := by
  unfold buildRange
  refine ⟨rfl, rfl, rfl, by simp, ?_, ?_⟩ <;>
    · dsimp only
      split
      · simp
      · split <;> simp

/-- Total height of a built snapshot on the uniform path. -/
lemma buildRange_totalHeight_uniform (st : ControllerState)
    (totalCount start endIndex : ℤ) (f p : ℚ) (h : st.isUniform = true) :
    (buildRange st totalCount start endIndex f p).totalHeight =
      min ((totalCount : ℚ) * st.uniformSize / st.scrollMultiplier)
        MAX_SAFE_SCROLL_HEIGHT := by
  unfold buildRange
  dsimp only
  rw [h]
  simp

/-- Shape of any publishing recomputation: an element was present with a
positive viewport, the engine supplied a candidate, and the result state
is the previous state with the last-accepted fields and the range
replaced. -/
lemma calculateRange_published_shape (args : Args) (el : Option Element)
    (st : ControllerState)
    (hpub : (calculateRange args el st).2 = .published) :
    ∃ (e : Element) (s0 e0 : ℤ),
      el = some e ∧ ¬ viewportOf args e ≤ 0 ∧
      calcCandidate st (scrollPosOf args e * st.scrollMultiplier)
        (viewportOf args e) (args.overscan.getD 3) = some (s0, e0) ∧
      ¬ min args.itemCount e0 - max 0 s0 < 0 ∧
      calculateRange args el st =
        ({ st with lastStart := max 0 s0, lastEnd := min args.itemCount e0,
                   lastPaddingTop := firstItemOffset st (max 0 s0) / st.scrollMultiplier,
                   range := (buildRange st args.itemCount (max 0 s0)
                     (min args.itemCount e0) (firstItemOffset st (max 0 s0))
                     (firstItemOffset st (max 0 s0) / st.scrollMultiplier)) },
         .published) := by
  rcases el with _ | e
  · simp [calculateRange] at hpub
  · rw [calculateRange_some_eq] at hpub ⊢
    by_cases hvp : viewportOf args e ≤ 0
    · rw [if_pos hvp] at hpub; simp at hpub
    · rw [if_neg hvp] at hpub ⊢
      rcases hc : calcCandidate st (scrollPosOf args e * st.scrollMultiplier)
          (viewportOf args e) (args.overscan.getD 3) with _ | ⟨s0, e0⟩
      · rw [hc] at hpub; simp [calcRangeWith] at hpub
      · rw [hc, calcRangeWith_eq] at hpub
        by_cases h1 : max 0 s0 = st.lastStart ∧ min args.itemCount e0 = st.lastEnd ∧
            |firstItemOffset st (max 0 s0) / st.scrollMultiplier - st.lastPaddingTop|
              < 1 / 2
        · rw [if_pos h1] at hpub; simp at hpub
        · rw [if_neg h1] at hpub
          by_cases h2 : min args.itemCount e0 - max 0 s0 < 0
          · rw [if_pos h2] at hpub; simp at hpub
          · refine ⟨e, s0, e0, rfl, hvp, hc, h2, ?_⟩
            rw [calcRangeWith_eq, if_neg h1, if_neg h2]

/-- The scroll multiplier computed by the controller is always at least
one. -/
lemma one_le_computeScrollMultiplier (vth : ℚ) :
    1 ≤ computeScrollMultiplier vth := by
  unfold computeScrollMultiplier
  split
  · rename_i h
    have hM : (0 : ℚ) < MAX_SAFE_SCROLL_HEIGHT := by norm_num [MAX_SAFE_SCROLL_HEIGHT]
    rw [le_div_iff₀ hM, one_mul]
    exact le_of_lt h
  · exact le_refl 1

/-! ### Claim theorems -/

/-- Claim C9: when the viewport extent along the configured axis is not
positive, `calculateRange` schedules a retry one frame later and returns
with the controller state unchanged: no range is published, none of
`lastStart`, `lastEnd`, `lastPaddingTop` is mutated, and no error is
surfaced. -/
theorem layout_not_settled_retry (args : Args) (e : Element)
    (st : ControllerState) (hvp : viewportOf args e ≤ 0) :
    calculateRange args (some e) st = (st, .retryScheduled) := by
  rw [calculateRange_some_eq, if_pos hvp]

/-- Witness for C9 at a concrete element of zero height. -/
theorem layout_not_settled_retry_witness :
    viewportOf argsFive elFlat ≤ 0 ∧
    calculateRange argsFive (some elFlat) initialState
      = (initialState, .retryScheduled) :=
  ⟨by simp [viewportOf, argsFive, elFlat],
   layout_not_settled_retry _ _ _ (by simp [viewportOf, argsFive, elFlat])⟩

/-- Claim C4: after setup or any item-count change the scroll multiplier
equals 1 whenever the virtual total height is at most 15000000 and equals
the virtual total height divided by 15000000 otherwise, hence is always
at least 1; and multiplying and then dividing any DOM offset by the
multiplier round-trips exactly over the rationals. -/
theorem scroll_multiplier_spec :
    (∀ vth : ℚ,
      (vth ≤ MAX_SAFE_SCROLL_HEIGHT → computeScrollMultiplier vth = 1) ∧
      (MAX_SAFE_SCROLL_HEIGHT < vth →
        computeScrollMultiplier vth = vth / MAX_SAFE_SCROLL_HEIGHT) ∧
      1 ≤ computeScrollMultiplier vth ∧
      (∀ d : ℚ, d * computeScrollMultiplier vth / computeScrollMultiplier vth = d)) ∧
    (∀ (cV : List ℚ → QuantumVariable) (cU : ℤ → ℚ → QuantumUniform)
        (args : Args) (st : ControllerState),
      (setupVirtualizer cV cU args st).1.scrollMultiplier =
        computeScrollMultiplier
          (if (setupVirtualizer cV cU args st).1.isUniform then
            (args.itemCount : ℚ) * args.estimateSize 0
          else
            ((List.range args.itemCount.toNat).map
              (fun i : ℕ => args.estimateSize (i : ℤ))).sum)) ∧
    (∀ (cV : List ℚ → QuantumVariable)
        (args : Args) (el : Option Element) (st : ControllerState)
        (u : QuantumUniform),
      st.wasmReady = true → st.isLoading = false →
      st.isUniform = true → st.uniformVirtualizer = some u →
      (handleItemCountChange cV args el st).1.scrollMultiplier =
        computeScrollMultiplier ((args.itemCount : ℚ) * st.uniformSize)) ∧
    (∀ (cV : List ℚ → QuantumVariable)
        (args : Args) (el : Option Element) (st : ControllerState)
        (v : QuantumVariable),
      st.wasmReady = true → st.isLoading = false →
      st.isUniform = false → st.virtualizer = some v →
      (handleItemCountChange cV args el st).1.scrollMultiplier =
        computeScrollMultiplier
          (((List.range args.itemCount.toNat).map
            (fun i : ℕ => args.estimateSize (i : ℤ))).sum)) := by
  refine ⟨?_, ?_, ?_, ?_⟩
  · intro vth
    refine ⟨?_, ?_, one_le_computeScrollMultiplier vth, ?_⟩
    · intro h
      unfold computeScrollMultiplier
      rw [if_neg (not_lt.mpr h)]
    · intro h
      unfold computeScrollMultiplier
      rw [if_pos h]
    · intro d
      have h1 := one_le_computeScrollMultiplier vth
      have hm : computeScrollMultiplier vth ≠ 0 := by linarith
      exact mul_div_cancel_right₀ d hm
  · intro cV cU args st
    unfold setupVirtualizer
    dsimp only
    split
    · rename_i h
      rw [h]
    · rename_i h
      simp only [Bool.not_eq_true] at h
      rw [h]
  · intro cV args el st u hw hl hb hu
    unfold handleItemCountChange
    rw [if_neg (by simp [hw, hl])]
    dsimp only
    rw [hb, hu]
    dsimp only
    exact (calculateRange_preserves args el _).2.2.2.2.2.2.1
  · intro cV args el st v hw hl hb hv
    unfold handleItemCountChange
    rw [if_neg (by simp [hw, hl])]
    dsimp only
    rw [hb, hv]
    dsimp only
    exact (calculateRange_preserves args el _).2.2.2.2.2.2.1

/-- Witness for C4: at a virtual total height of 30000000 the multiplier
is 2 and a DOM offset of 7 round-trips. -/
theorem scroll_multiplier_spec_witness :
    computeScrollMultiplier 30000000 = 2 ∧
    (7 : ℚ) * computeScrollMultiplier 30000000 / computeScrollMultiplier 30000000 = 7 := by
  constructor
  · have h := (scroll_multiplier_spec.1 30000000).2.1
      (by norm_num [MAX_SAFE_SCROLL_HEIGHT])
    rw [h]
    norm_num [MAX_SAFE_SCROLL_HEIGHT]
  · exact (scroll_multiplier_spec.1 30000000).2.2.2 7

/-- Claim C6: `initializeWasm` is single-flight and idempotent: while a
load is in flight every call returns the same pending promise without
touching the state, once ready a call resolves immediately without
reloading, and since the in-flight marker is cleared on both completion
paths, a call made after a failed load starts a fresh attempt. -/
theorem initializeWasm_single_flight :
    (∀ (s : GatewayState) (p : ℕ), s.initializationPromise = some p →
      initializeWasm s = (s, .existing p)) ∧
    (∀ s : GatewayState, s.initializationPromise = none →
      s.wasmStatus = .ready → initializeWasm s = (s, .resolvedImmediately)) ∧
    (∀ (s : GatewayState) (ok : Bool),
      (settleInit s ok).initializationPromise = none) ∧
    (∀ s : GatewayState,
      (settleInit s false).wasmStatus = .error ∧
      (initializeWasm (settleInit s false)).2 = .started s.nextPromiseId ∧
      (initializeWasm (settleInit s false)).1.wasmStatus = .initializing) := by
  refine ⟨?_, ?_, ?_, ?_⟩
  · intro s p h
    unfold initializeWasm
    rw [h]
  · intro s h hr
    unfold initializeWasm
    rw [h]
    dsimp only
    rw [if_pos hr]
  · intro s ok
    rfl
  · intro s
    refine ⟨rfl, ?_, ?_⟩ <;> simp [initializeWasm, settleInit]

/-- Witness for C6 at concrete gateway states: an in-flight call returns
the pending promise, and a ready idle-marker state resolves
immediately. -/
theorem initializeWasm_single_flight_witness :
    initializeWasm gsInFlight = (gsInFlight, .existing 7) ∧
    initializeWasm gsReady = (gsReady, .resolvedImmediately) :=
  ⟨initializeWasm_single_flight.1 gsInFlight 7 rfl,
   initializeWasm_single_flight.2.1 gsReady rfl rfl⟩

/-- Claim C10: `setupVirtualizer` always invokes the caller-supplied
estimator first at index 0, and when the item count is 0 that is the only
invocation, so an estimator defined only on valid indices of an empty
list is still called once with index 0. -/
theorem setup_calls_estimator_at_zero :
    (∀ (cV : List ℚ → QuantumVariable) (cU : ℤ → ℚ → QuantumUniform)
        (args : Args) (st : ControllerState),
      ((setupVirtualizer cV cU args st).2).head? = some 0) ∧
    (∀ (cV : List ℚ → QuantumVariable) (cU : ℤ → ℚ → QuantumUniform)
        (args : Args) (st : ControllerState), args.itemCount = 0 →
      (setupVirtualizer cV cU args st).2 = [0]) := by
  constructor
  · intro cV cU args st
    unfold setupVirtualizer
    dsimp only
    split <;> rfl
  · intro cV cU args st h
    unfold setupVirtualizer
    rw [h]
    norm_num [uniformCheckLoop]

/-- Witness for C10 with an item count of 0: the estimator call log of
setup is exactly the one call at index 0. -/
theorem setup_calls_estimator_at_zero_witness :
    (setupVirtualizer noopVariableFactory plainUniformFactory
      argsZero initialState).2 = [0] :=
  setup_calls_estimator_at_zero.2 _ _ _ _ rfl

/-- The fixture handle `uniHandle13` satisfies the engine contract for
five items. -/
lemma uniHandle13_contract : uniformContract uniHandle13 5 := by
  intro vs vp ov
  exact ⟨1, 3, by norm_num [uniHandle13], by norm_num, by norm_num, by norm_num⟩

/-- After a state whose last-accepted fields match what a recomputation
over the same geometry would produce, `calculateRange` takes the skip
exit and returns that state unchanged. -/
lemma calculateRange_after_publish (args : Args) (e : Element)
    (st R : ControllerState)
    (hRiso : R.isUniform = st.isUniform)
    (hRu : R.uniformVirtualizer = st.uniformVirtualizer)
    (hRv : R.virtualizer = st.virtualizer)
    (hRsz : R.uniformSize = st.uniformSize)
    (hRm : R.scrollMultiplier = st.scrollMultiplier)
    (s0 e0 : ℤ)
    (hvp : ¬ viewportOf args e ≤ 0)
    (hc : calcCandidate st (scrollPosOf args e * st.scrollMultiplier)
        (viewportOf args e) (args.overscan.getD 3) = some (s0, e0))
    (hRs : R.lastStart = max 0 s0)
    (hRe : R.lastEnd = min args.itemCount e0)
    (hRp : R.lastPaddingTop = firstItemOffset st (max 0 s0) / st.scrollMultiplier) :
    calculateRange args (some e) R = (R, .skipped) := by
  have hcond : max 0 s0 = R.lastStart ∧ min args.itemCount e0 = R.lastEnd ∧
      |firstItemOffset R (max 0 s0) / R.scrollMultiplier - R.lastPaddingTop|
        < 1 / 2 := by
    refine ⟨hRs.symm, hRe.symm, ?_⟩
    rw [firstItemOffset_congr st R hRiso hRsz hRv, hRm, hRp]
    norm_num
  rw [calculateRange_some_eq, if_neg hvp, hRm,
      calcCandidate_congr st R hRiso hRu hRv, hc, calcRangeWith_eq, if_pos hcond]

/-- Claim C2: when a recomputation reproduces the last accepted start and
end indices and the padding moves by less than half a pixel,
`calculateRange` returns without mutating anything and without
publishing; in particular the outcome channel says skipped exactly when
the state is returned unchanged, and running `calculateRange` again right
after a publication with the same element geometry skips and keeps the
identical published range value. -/
theorem skip_rule_no_mutation :
    (∀ (args : Args) (e : Element) (st : ControllerState) (s0 e0 : ℤ),
      ¬ viewportOf args e ≤ 0 →
      calcCandidate st (scrollPosOf args e * st.scrollMultiplier)
          (viewportOf args e) (args.overscan.getD 3) = some (s0, e0) →
      max 0 s0 = st.lastStart → min args.itemCount e0 = st.lastEnd →
      |firstItemOffset st (max 0 s0) / st.scrollMultiplier - st.lastPaddingTop|
        < 1 / 2 →
      calculateRange args (some e) st = (st, .skipped)) ∧
    (∀ (args : Args) (el : Option Element) (st : ControllerState),
      (calculateRange args el st).2 = .skipped →
      (calculateRange args el st).1 = st) ∧
    (∀ (args : Args) (el : Option Element) (st : ControllerState),
      (calculateRange args el st).2 = .published →
      calculateRange args el (calculateRange args el st).1 =
        ((calculateRange args el st).1, .skipped)) := by
  refine ⟨?_, ?_, ?_⟩
  · intro args e st s0 e0 hvp hc hs he hp
    rw [calculateRange_some_eq, if_neg hvp, hc, calcRangeWith_eq,
        if_pos ⟨hs, he, hp⟩]
  · intro args el st h
    rcases el with _ | e
    · rfl
    · rw [calculateRange_some_eq] at h ⊢
      by_cases hvp : viewportOf args e ≤ 0
      · rw [if_pos hvp]
      · rw [if_neg hvp] at h ⊢
        rcases hc : calcCandidate st (scrollPosOf args e * st.scrollMultiplier)
            (viewportOf args e) (args.overscan.getD 3) with _ | ⟨s0, e0⟩
        · rfl
        · rw [hc] at h
          rw [calcRangeWith_eq] at h ⊢
          by_cases h1 : max 0 s0 = st.lastStart ∧
              min args.itemCount e0 = st.lastEnd ∧
              |firstItemOffset st (max 0 s0) / st.scrollMultiplier
                - st.lastPaddingTop| < 1 / 2
          · rw [if_pos h1]
          · rw [if_neg h1] at h
            by_cases h2 : min args.itemCount e0 - max 0 s0 < 0
            · rw [if_pos h2] at h; simp at h
            · rw [if_neg h2] at h; simp at h
  · intro args el st hpub
    obtain ⟨e, s0, e0, hel, hvp, hc, h2, heq⟩ :=
      calculateRange_published_shape args el st hpub
    subst hel
    rw [heq]
    exact calculateRange_after_publish args e st _ rfl rfl rfl rfl rfl s0 e0
      hvp hc rfl rfl rfl

/-- Witness for C2: over the fixture uniform state a first recomputation
publishes and an immediate second recomputation with the same geometry
skips, returning the identical state. -/
theorem skip_rule_no_mutation_witness :
    (calculateRange argsFive (some elTall) stUniFive).2 = .published ∧
    calculateRange argsFive (some elTall)
        (calculateRange argsFive (some elTall) stUniFive).1 =
      ((calculateRange argsFive (some elTall) stUniFive).1, .skipped) :=
  ⟨by decide, skip_rule_no_mutation.2.2 argsFive (some elTall) stUniFive (by decide)⟩

/-- Claim C1: under the engine contract, every published range satisfies
`0 ≤ startIndex ≤ endIndex ≤ itemCount`, and the items, offsets and sizes
arrays each have length `endIndex - startIndex`. -/
theorem published_range_invariant (args : Args) (el : Option Element)
    (st : ControllerState)
    (hU : ∀ u, st.uniformVirtualizer = some u → uniformContract u args.itemCount)
    (hV : ∀ v, st.virtualizer = some v → variableContract v args.itemCount)
    (h31 : args.itemCount < 2 ^ 31)
    (hpub : (calculateRange args el st).2 = .published) :
    0 ≤ (calculateRange args el st).1.range.startIndex ∧
    (calculateRange args el st).1.range.startIndex ≤
      (calculateRange args el st).1.range.endIndex ∧
    (calculateRange args el st).1.range.endIndex ≤ args.itemCount ∧
    (calculateRange args el st).1.range.items.length =
      ((calculateRange args el st).1.range.endIndex -
        (calculateRange args el st).1.range.startIndex).toNat ∧
    (calculateRange args el st).1.range.offsets.length =
      ((calculateRange args el st).1.range.endIndex -
        (calculateRange args el st).1.range.startIndex).toNat ∧
    (calculateRange args el st).1.range.sizes.length =
      ((calculateRange args el st).1.range.endIndex -
        (calculateRange args el st).1.range.startIndex).toNat := by
  obtain ⟨e, s0, e0, hel, hvp, hc, h2, heq⟩ :=
    calculateRange_published_shape args el st hpub
  obtain ⟨hb1, hb2, hb3⟩ :=
    calcCandidate_bounds st args.itemCount hU hV h31 _ _ _ s0 e0 hc
  rw [heq]
  dsimp only
  obtain ⟨hs, he, hpad, hlen1, hlen2, hlen3⟩ :=
    buildRange_spec st args.itemCount (max 0 s0) (min args.itemCount e0)
      (firstItemOffset st (max 0 s0))
      (firstItemOffset st (max 0 s0) / st.scrollMultiplier)
  rw [hs, he, hlen1, hlen2, hlen3]
  refine ⟨by omega, by omega, by omega, rfl, rfl, rfl⟩

/-- Witness for C1: the fixture uniform state publishes a range and the
bounds and length invariants hold there. -/
theorem published_range_invariant_witness :
    (calculateRange argsFive (some elTall) stUniFive).2 = .published ∧
    (0 ≤ (calculateRange argsFive (some elTall) stUniFive).1.range.startIndex ∧
      (calculateRange argsFive (some elTall) stUniFive).1.range.startIndex ≤
        (calculateRange argsFive (some elTall) stUniFive).1.range.endIndex ∧
      (calculateRange argsFive (some elTall) stUniFive).1.range.endIndex ≤
        argsFive.itemCount ∧
      (calculateRange argsFive (some elTall) stUniFive).1.range.items.length =
        ((calculateRange argsFive (some elTall) stUniFive).1.range.endIndex -
          (calculateRange argsFive (some elTall) stUniFive).1.range.startIndex).toNat ∧
      (calculateRange argsFive (some elTall) stUniFive).1.range.offsets.length =
        ((calculateRange argsFive (some elTall) stUniFive).1.range.endIndex -
          (calculateRange argsFive (some elTall) stUniFive).1.range.startIndex).toNat ∧
      (calculateRange argsFive (some elTall) stUniFive).1.range.sizes.length =
        ((calculateRange argsFive (some elTall) stUniFive).1.range.endIndex -
          (calculateRange argsFive (some elTall) stUniFive).1.range.startIndex).toNat) :=
  ⟨by decide,
   published_range_invariant argsFive (some elTall) stUniFive
    (fun u hu => by
      have h : uniHandle13 = u := by
        have h2 : (some uniHandle13 : Option QuantumUniform) = some u := hu
        injection h2
      exact h ▸ uniHandle13_contract)
    (fun v hv => Option.noConfusion
      (show (none : Option QuantumVariable) = some v from hv))
    (by decide)
    (by decide)⟩

/-- The sampling loop reports uniform exactly when every sampled index
agrees with the first sample. -/
lemma uniformCheckLoop_fst_iff (estimateSize : ℤ → ℚ) (firstSize : ℚ)
    (i : ℤ) (fuel : ℕ) :
    (uniformCheckLoop estimateSize firstSize i fuel).1 = true ↔
      ∀ k : ℕ, k < fuel → estimateSize (i + (k : ℤ)) = firstSize := by
  induction fuel generalizing i with
  | zero => simp [uniformCheckLoop]
  | succ n ih =>
    rw [uniformCheckLoop]
    by_cases h : estimateSize i = firstSize
    · rw [if_pos h]
      dsimp only
      rw [ih (i + 1)]
      constructor
      · intro hall k hk
        cases k with
        | zero => simpa using h
        | succ k2 =>
          have h3 := hall k2 (by omega)
          have h4 : i + 1 + (k2 : ℤ) = i + ((k2 : ℕ) + 1 : ℕ) := by push_cast; ring
          rwa [h4] at h3
      · intro hall k hk
        have h3 := hall (k + 1) (by omega)
        have h4 : i + ((k + 1 : ℕ) : ℤ) = i + 1 + (k : ℤ) := by push_cast; ring
        rwa [h4] at h3
    · rw [if_neg h]
      constructor
      · intro hf; exact absurd hf (by simp)
      · intro hall
        exact absurd (by simpa using hall 0 (by omega)) h

/-- Reachability by recomputation steps preserves the configuration
fields. -/
lemma CalcStep_preserves (args : Args) (st st' : ControllerState)
    (h : CalcStep args st st') :
    st'.isUniform = st.isUniform ∧ st'.uniformSize = st.uniformSize ∧
    st'.scrollMultiplier = st.scrollMultiplier ∧
    st'.uniformVirtualizer = st.uniformVirtualizer ∧
    st'.virtualizer = st.virtualizer := by
  induction h with
  | refl => exact ⟨rfl, rfl, rfl, rfl, rfl⟩
  | step st2 el h ih =>
    have hp := calculateRange_preserves args el st2
    exact ⟨hp.2.2.2.2.1.trans ih.1, hp.2.2.2.2.2.1.trans ih.2.1,
           hp.2.2.2.2.2.2.1.trans ih.2.2.1, hp.2.2.2.1.trans ih.2.2.2.1,
           hp.2.2.1.trans ih.2.2.2.2⟩

/-- Result of `setupVirtualizer` when the sampling loop reports a uniform
size. -/
lemma setup_uniform_eq (cV : List ℚ → QuantumVariable)
    (cU : ℤ → ℚ → QuantumUniform) (args : Args) (st0 : ControllerState)
    (huni : (uniformCheckLoop args.estimateSize (args.estimateSize 0) 1
      ((min 10 args.itemCount - 1).toNat)).1 = true) :
    (setupVirtualizer cV cU args st0).1 =
      { st0 with
          isUniform := true
          uniformSize := args.estimateSize 0
          uniformVirtualizer := some (cU args.itemCount (args.estimateSize 0))
          scrollMultiplier := computeScrollMultiplier ((args.itemCount : ℚ) * args.estimateSize 0)
          isLoading := false } := by
  unfold setupVirtualizer
  dsimp only
  rw [huni]
  simp

/-- On the uniform path with a contract-satisfying handle and an
invalidated `lastStart`, a recomputation over a laid-out element always
publishes. -/
lemma calculateRange_uniform_publishes (args : Args) (e : Element)
    (st : ControllerState) (u : QuantumUniform)
    (hb : st.isUniform = true) (hu : st.uniformVirtualizer = some u)
    (hvp : ¬ viewportOf args e ≤ 0)
    (hcon : uniformContract u args.itemCount)
    (h31 : args.itemCount < 2 ^ 31)
    (hlast : st.lastStart < 0) :
    (calculateRange args (some e) st).2 = .published := by
  rw [calculateRange_some_eq, if_neg hvp,
      calcCandidate_uniform st u hb hu]
  obtain ⟨sa, ea, hinfo, hsa, hse, hen⟩ := hcon
    (scrollPosOf args e * st.scrollMultiplier) (viewportOf args e)
    (args.overscan.getD 3)
  rw [hinfo]
  simp only [List.getD_cons_zero, List.getD_cons_succ]
  rw [jsToInt32_intCast sa (by omega) (by omega),
      jsToInt32_intCast ea (by omega) (by omega)]
  have hskip : ¬ (max 0 sa = st.lastStart ∧
      min args.itemCount ea = st.lastEnd ∧
      |firstItemOffset st (max 0 sa) / st.scrollMultiplier - st.lastPaddingTop|
        < 1 / 2) := by
    intro hcontra
    have h1 := hcontra.1
    omega
  have hneg : ¬ min args.itemCount ea - max 0 sa < 0 := by omega
  rw [calcRangeWith_eq, if_neg hskip, if_neg hneg]

/-- Claim C3: when the estimator returns the same constant at each of the
first `min(10, n)` indices (n at least 1), setup selects the uniform path
and creates the uniform handle with `(n, c)`, and as long as `n * c` is
at most 15000000 every range published by any later recomputation has
total height `n * c`; when some sampled size differs from the first, the
variable path is selected. -/
theorem uniform_path_selection (cV : List ℚ → QuantumVariable)
    (cU : ℤ → ℚ → QuantumUniform) (st0 : ControllerState) :
    (∀ (args : Args) (c : ℚ), 1 ≤ args.itemCount →
      (∀ i : ℤ, 0 ≤ i → i < min 10 args.itemCount → args.estimateSize i = c) →
      (setupVirtualizer cV cU args st0).1.isUniform = true ∧
      (setupVirtualizer cV cU args st0).1.uniformVirtualizer =
        some (cU args.itemCount c) ∧
      ((args.itemCount : ℚ) * c ≤ 15000000 →
        ∀ st' : ControllerState,
        CalcStep args (setupVirtualizer cV cU args st0).1 st' →
        ∀ el : Option Element, (calculateRange args el st').2 = .published →
        (calculateRange args el st').1.range.totalHeight =
          (args.itemCount : ℚ) * c)) ∧
    (∀ args : Args,
      (∃ i : ℤ, 1 ≤ i ∧ i < min 10 args.itemCount ∧
        args.estimateSize i ≠ args.estimateSize 0) →
      (setupVirtualizer cV cU args st0).1.isUniform = false ∧
      ((setupVirtualizer cV cU args st0).1.virtualizer).isSome = true) := by
  constructor
  · intro args c hn hconst
    have hminpos : (1 : ℤ) ≤ min 10 args.itemCount := by omega
    have hfs : args.estimateSize 0 = c := hconst 0 le_rfl (by omega)
    have huni : (uniformCheckLoop args.estimateSize (args.estimateSize 0) 1
        ((min 10 args.itemCount - 1).toNat)).1 = true := by
      rw [uniformCheckLoop_fst_iff]
      intro k hk
      rw [hfs]
      exact hconst (1 + (k : ℤ)) (by omega) (by omega)
    have hsetup := setup_uniform_eq cV cU args st0 huni
    refine ⟨by rw [hsetup], by rw [hsetup, hfs], ?_⟩
    intro hle st' hstep el hpub
    have hle2 : (args.itemCount : ℚ) * args.estimateSize 0
        ≤ MAX_SAFE_SCROLL_HEIGHT := by
      rw [hfs]
      simpa [MAX_SAFE_SCROLL_HEIGHT] using hle
    have hm1 : computeScrollMultiplier
        ((args.itemCount : ℚ) * args.estimateSize 0) = 1 := by
      unfold computeScrollMultiplier
      rw [if_neg (not_lt.mpr hle2)]
    obtain ⟨hpi, hps, hpm, hpu, hpv⟩ := CalcStep_preserves args _ st' hstep
    rw [hsetup] at hpi hps hpm
    obtain ⟨e, s0, e0, hel, hvp2, hc2, h22, heq2⟩ :=
      calculateRange_published_shape args el st' hpub
    rw [heq2]
    dsimp only
    rw [buildRange_totalHeight_uniform st' args.itemCount _ _ _ _ (by rw [hpi])]
    rw [hps, hpm]
    dsimp only
    rw [hm1, hfs, div_one, min_eq_left]
    simpa [MAX_SAFE_SCROLL_HEIGHT] using hle
  · intro args hex
    obtain ⟨i, hi1, hi2, hne⟩ := hex
    have hfalse : ¬ (uniformCheckLoop args.estimateSize (args.estimateSize 0) 1
        ((min 10 args.itemCount - 1).toNat)).1 = true := by
      rw [uniformCheckLoop_fst_iff]
      push_neg
      refine ⟨(i - 1).toNat, by omega, ?_⟩
      have h4 : (1 : ℤ) + ((i - 1).toNat : ℤ) = i := by omega
      rw [h4]
      exact hne
    have hfalse2 : (uniformCheckLoop args.estimateSize (args.estimateSize 0) 1
        ((min 10 args.itemCount - 1).toNat)).1 = false := by
      simpa using hfalse
    have hsetup : (setupVirtualizer cV cU args st0).1 =
        { st0 with
            isUniform := false
            uniformSize := args.estimateSize 0
            virtualizer := some (cV ((List.range args.itemCount.toNat).map (fun i : ℕ => args.estimateSize (i : ℤ))))
            scrollMultiplier := computeScrollMultiplier (((List.range args.itemCount.toNat).map (fun i : ℕ => args.estimateSize (i : ℤ))).sum)
            isLoading := false } := by
      unfold setupVirtualizer
      dsimp only
      rw [hfalse2]
      simp
    rw [hsetup]
    exact ⟨rfl, rfl⟩

/-- Witness for C3: a constant estimator of size 50 over five items sets
up the uniform path and the first recomputation publishes total height
250. -/
theorem uniform_path_selection_witness :
    (setupVirtualizer noopVariableFactory plainUniformFactory argsFive
      initialState).1.isUniform = true ∧
    (calculateRange argsFive (some elTall)
      (setupVirtualizer noopVariableFactory plainUniformFactory argsFive
        initialState).1).2 = .published ∧
    (calculateRange argsFive (some elTall)
      (setupVirtualizer noopVariableFactory plainUniformFactory argsFive
        initialState).1).1.range.totalHeight = 250 := by
  have h := (uniform_path_selection noopVariableFactory plainUniformFactory
    initialState).1 argsFive 50 (by decide) (fun i h1 h2 => rfl)
  refine ⟨h.1, by decide, ?_⟩
  have h3 := h.2.2 (by norm_num [argsFive]) _ CalcStep.refl (some elTall)
    (by decide)
  rw [h3]
  norm_num [argsFive]

/-- Claim C7: on the uniform path, an item-count change updates the
existing handle count in place, recomputes the scroll multiplier from
`count * uniformSize`, and forces an immediate recomputation whose
publication is never suppressed by the skip rule, whatever the previous
last-accepted values were; when `count * uniformSize` stays under the
ceiling the published total height is exactly `count * uniformSize`. -/
theorem item_count_change_uniform (cV : List ℚ → QuantumVariable)
    (args : Args) (e : Element) (st : ControllerState) (u : QuantumUniform)
    (hw : st.wasmReady = true) (hl : st.isLoading = false)
    (hb : st.isUniform = true) (hu : st.uniformVirtualizer = some u)
    (hvp : ¬ viewportOf args e ≤ 0)
    (hcon : uniformContract (u.set_count args.itemCount) args.itemCount)
    (h31 : args.itemCount < 2 ^ 31)
    (hle : (args.itemCount : ℚ) * st.uniformSize ≤ MAX_SAFE_SCROLL_HEIGHT) :
    (handleItemCountChange cV args (some e) st).2 = some .published ∧
    (handleItemCountChange cV args (some e) st).1.uniformVirtualizer =
      some (u.set_count args.itemCount) ∧
    (handleItemCountChange cV args (some e) st).1.scrollMultiplier =
      computeScrollMultiplier ((args.itemCount : ℚ) * st.uniformSize) ∧
    (handleItemCountChange cV args (some e) st).1.range.totalHeight =
      (args.itemCount : ℚ) * st.uniformSize := by
  unfold handleItemCountChange
  rw [if_neg (by simp [hw, hl])]
  dsimp only
  rw [hb, hu]
  dsimp only
  have hpub := calculateRange_uniform_publishes args e
    { st with
        uniformVirtualizer := some (u.set_count args.itemCount)
        isUniform := true
        scrollMultiplier := computeScrollMultiplier ((args.itemCount : ℚ) * st.uniformSize)
        lastStart := -1
        lastEnd := -1 }
    (u.set_count args.itemCount) rfl rfl hvp hcon h31 (by norm_num)
  have hm1 : computeScrollMultiplier ((args.itemCount : ℚ) * st.uniformSize) = 1 := by
    unfold computeScrollMultiplier
    rw [if_neg (not_lt.mpr hle)]
  refine ⟨by rw [hpub], ?_, ?_, ?_⟩
  · rw [(calculateRange_preserves args (some e) _).2.2.2.1]
  · rw [(calculateRange_preserves args (some e) _).2.2.2.2.2.2.1]
  · obtain ⟨e2, s0, e0, hel2, hvp2, hc2, h22, heq2⟩ :=
      calculateRange_published_shape args (some e) _ hpub
    rw [heq2]
    dsimp only
    rw [buildRange_totalHeight_uniform _ args.itemCount _ _ _ _ rfl]
    dsimp only
    rw [hm1, div_one, min_eq_left hle]

/-- Witness for C7: changing the count to 2000 at uniform size 50, from a
state whose published total height was 50000, publishes a fresh range
with total height 100000. -/
theorem item_count_change_uniform_witness :
    stUniThousand.range.totalHeight = 50000 ∧
    (handleItemCountChange noopVariableFactory argsTwoThousand (some elTall)
      stUniThousand).2 = some .published ∧
    (handleItemCountChange noopVariableFactory argsTwoThousand (some elTall)
      stUniThousand).1.range.totalHeight = 100000 := by
  have h := item_count_change_uniform noopVariableFactory argsTwoThousand
    elTall stUniThousand uniHandle13 rfl rfl rfl rfl
    (by norm_num [viewportOf, argsTwoThousand, elTall])
    (by
      intro vs vp ov
      exact ⟨1, 3, by norm_num [uniHandle13, QuantumUniform.set_count],
        by norm_num, by norm_num, by norm_num [argsTwoThousand]⟩)
    (by norm_num [argsTwoThousand])
    (by norm_num [argsTwoThousand, stUniThousand, stUniFive, initialState,
      MAX_SAFE_SCROLL_HEIGHT])
  refine ⟨rfl, h.1, ?_⟩
  rw [h.2.2.2]
  norm_num [argsTwoThousand, stUniThousand, stUniFive, initialState]

/-- Claim C8: with an item count of zero, under the engine contract that
a correct handle returns the empty candidate range for an empty list,
setup selects the uniform path and the subsequent recomputation completes
without raising and publishes the empty range with start and end index 0
and total height 0. -/
theorem empty_count_empty_range (cV : List ℚ → QuantumVariable)
    (cU : ℤ → ℚ → QuantumUniform) (args : Args) (e : Element)
    (h0 : args.itemCount = 0)
    (hvp : ¬ viewportOf args e ≤ 0)
    (hempty : ∀ vs vp ov,
      (cU 0 (args.estimateSize 0)).calc_range vs vp ov = [0, 0]) :
    (calculateRange args (some e)
      (setupVirtualizer cV cU args
        { initialState with wasmReady := true }).1).2 = .published ∧
    (calculateRange args (some e)
      (setupVirtualizer cV cU args
        { initialState with wasmReady := true }).1).1.range.startIndex = 0 ∧
    (calculateRange args (some e)
      (setupVirtualizer cV cU args
        { initialState with wasmReady := true }).1).1.range.endIndex = 0 ∧
    (calculateRange args (some e)
      (setupVirtualizer cV cU args
        { initialState with wasmReady := true }).1).1.range.totalHeight = 0 := by
  have huni : (uniformCheckLoop args.estimateSize (args.estimateSize 0) 1
      ((min 10 args.itemCount - 1).toNat)).1 = true := by
    rw [h0, (by decide : ((min (10 : ℤ) 0 - 1).toNat) = 0)]
    rfl
  have hsetup := setup_uniform_eq cV cU args
    { initialState with wasmReady := true } huni
  rw [hsetup, h0]
  rw [calculateRange_some_eq, if_neg hvp,
      calcCandidate_uniform _ (cU 0 (args.estimateSize 0)) rfl rfl, hempty]
  simp only [List.getD_cons_zero, List.getD_cons_succ]
  rw [(by decide : jsToInt32 0 = 0)]
  rw [calcRangeWith_eq, h0]
  rw [if_neg ?hskip]
  case hskip =>
    intro hcontra
    have h1 := hcontra.1
    simp [initialState] at h1
  rw [if_neg (by decide : ¬ (min (0 : ℤ) 0 - max 0 0 < 0))]
  refine ⟨rfl, ?_, ?_, ?_⟩
  · dsimp only
    rw [(buildRange_spec _ _ _ _ _ _).1]
    decide
  · dsimp only
    rw [(buildRange_spec _ _ _ _ _ _).2.1]
    decide
  · dsimp only
    rw [buildRange_totalHeight_uniform _ _ _ _ _ _ rfl]
    rw [Int.cast_zero, zero_mul, zero_div,
        min_eq_left (by norm_num [MAX_SAFE_SCROLL_HEIGHT])]

/-- Witness for C8: concrete zero-count setup over a flat estimator and a
handle returning the empty candidate pair publishes the empty range. -/
theorem empty_count_empty_range_witness :
    (calculateRange argsZero (some elTall)
      (setupVirtualizer noopVariableFactory emptyUniformFactory argsZero
        { initialState with wasmReady := true }).1).2 = .published ∧
    (calculateRange argsZero (some elTall)
      (setupVirtualizer noopVariableFactory emptyUniformFactory argsZero
        { initialState with wasmReady := true }).1).1.range.totalHeight = 0 := by
  have h := empty_count_empty_range noopVariableFactory emptyUniformFactory
    argsZero elTall rfl
    (by norm_num [viewportOf, argsZero, elTall])
    (fun vs vp ov => rfl)
  exact ⟨h.1, h.2.2.2⟩

/-- The resource invariant depends only on the handle, free-count and
destroyed fields. -/
lemma lifeInv_of_fields (s t : LifeState)
    (hl : t.handleLive = s.handleLive) (hf : t.freeCount = s.freeCount)
    (hd : t.destroyed = s.destroyed) (h : lifeInv s) : lifeInv t := by
  unfold lifeInv at h ⊢
  rw [hl, hf, hd]
  exact h

/-- A scroll notification does not touch the handle, the free counter or
the destroyed flag. -/
lemma stepScroll_fields (s : LifeState) :
    (stepScroll s).handleLive = s.handleLive ∧
    (stepScroll s).freeCount = s.freeCount ∧
    (stepScroll s).destroyed = s.destroyed := by
  unfold stepScroll
  split
  · exact ⟨rfl, rfl, rfl⟩
  · split <;> exact ⟨rfl, rfl, rfl⟩

/-- Running a frame does not touch the handle, the free counter or the
destroyed flag. -/
lemma stepRunFrame_fields (s : LifeState) :
    (stepRunFrame s).handleLive = s.handleLive ∧
    (stepRunFrame s).freeCount = s.freeCount ∧
    (stepRunFrame s).destroyed = s.destroyed := by
  unfold stepRunFrame
  split
  · exact ⟨rfl, rfl, rfl⟩
  · split
    · exact ⟨rfl, rfl, rfl⟩
    · dsimp only
      split <;> exact ⟨rfl, rfl, rfl⟩

/-- One lifecycle step preserves the resource invariant. -/
lemma lifeInv_step (s : LifeState) (e : LifeEvent) (h : lifeInv s) :
    lifeInv (lifeStep s e) := by
  cases e with
  | scroll =>
    obtain ⟨hl, hf, hd⟩ := stepScroll_fields s
    exact lifeInv_of_fields s _ hl hf hd h
  | runFrame =>
    obtain ⟨hl, hf, hd⟩ := stepRunFrame_fields s
    exact lifeInv_of_fields s _ hl hf hd h
  | destroy =>
    obtain ⟨h1, h2, h3⟩ := h
    refine ⟨?_, ?_, ?_⟩
    · intro hcontra
      exact absurd hcontra (by simp [lifeStep, stepDestroy])
    · intro _
      show s.freeCount + (if s.handleLive then 1 else 0) = 1
      cases hlv : s.handleLive
      · rw [if_neg (by simp [hlv])]
        have := h2 hlv
        omega
      · rw [if_pos (by simp [hlv])]
        have := h1 hlv
        omega
    · intro _
      rfl

/-- The resource invariant holds at the lifecycle start state. -/
lemma lifeInv_initLife : lifeInv initLife := by
  refine ⟨fun _ => rfl, ?_, ?_⟩ <;> intro hc <;> simp [initLife] at hc

/-- The resource invariant holds after any event sequence. -/
lemma lifeInv_foldl (evs : List LifeEvent) (s : LifeState) (h : lifeInv s) :
    lifeInv (evs.foldl lifeStep s) := by
  induction evs generalizing s with
  | nil => exact h
  | cons e evs ih => exact ih (lifeStep s e) (lifeInv_step s e h)

/-- Counterexample to claim C5: after one scroll notification followed
immediately by teardown, the pending-frame latch is still set and the
scheduled stage-1 callback is not cancelled, and letting the remaining
frames run makes the recomputation callback execute once after
teardown. -/
theorem teardown_claim_counterexample :
    (runLife [.scroll, .destroy]).rafPending = true ∧
    (runLife [.scroll, .destroy]).frames ≠ [] ∧
    (runLife [.scroll, .destroy, .runFrame,
      .runFrame]).recomputeRunsAfterDestroy = 1 := by
  decide

/-- Claim C5 amended: over every lifecycle trace the engine handle is
freed at most once, after teardown it has been freed exactly once and its
reference is cleared (so no handle operation can follow the release), and
teardown cancels exactly the frame registered under a nonzero `rafId`
while leaving the pending-frame latch untouched. -/
theorem teardown_amended :
    (∀ evs : List LifeEvent, (runLife evs).freeCount ≤ 1) ∧
    (∀ evs : List LifeEvent, (runLife evs).destroyed = true →
      (runLife evs).freeCount = 1 ∧ (runLife evs).handleLive = false) ∧
    (∀ s : LifeState, s.rafId ≠ 0 →
      ∀ p ∈ (stepDestroy s).frames, p.1 ≠ s.rafId) ∧
    (∀ s : LifeState, (stepDestroy s).rafPending = s.rafPending) := by
  have hinv : ∀ evs : List LifeEvent, lifeInv (runLife evs) :=
    fun evs => lifeInv_foldl evs initLife lifeInv_initLife
  refine ⟨?_, ?_, ?_, ?_⟩
  · intro evs
    obtain ⟨h1, h2, h3⟩ := hinv evs
    cases hl : (runLife evs).handleLive
    · have := h2 hl
      omega
    · have := h1 hl
      omega
  · intro evs hd
    obtain ⟨h1, h2, h3⟩ := hinv evs
    have h4 := h3 hd
    exact ⟨h2 h4, h4⟩
  · intro s hraf p hp
    unfold stepDestroy at hp
    dsimp only at hp
    rw [if_pos hraf] at hp
    simpa using (List.mem_filter.mp hp).2
  · intro s
    rfl

/-- Witness for the amended C5 at a concrete trace: a full scroll cycle
followed by teardown frees the handle exactly once. -/
theorem teardown_amended_witness :
    (runLife [.scroll, .runFrame, .runFrame, .destroy]).destroyed = true ∧
    (runLife [.scroll, .runFrame, .runFrame, .destroy]).freeCount = 1 :=
  ⟨by decide,
   (teardown_amended.2.1 [.scroll, .runFrame, .runFrame, .destroy]
     (by decide)).1⟩

end Warper
